import Mathlib

/-!
Shallow embedding of the operator scripts of the pria-cloud/agents
repository: `daytona-create-and-preview.py`, `get-preview-link.py`, and
`scaffold-files/daytona-deploy.py`.  Each script is modelled as a pure
function from its inputs (argv tail, relevant environment variables) and a
stub provider-client behaviour to a trace of provider calls plus an
outcome (exit status or returned record).  A raised exception of the
provider client is modelled as `Except.error ()` in the behaviour; an
event is recorded in the trace whenever the corresponding call is made,
whether or not it raises.
-/

namespace Agents

/-- Python truthiness of an optional string: `None` and the empty string
are falsy; every other string is truthy. -/
def strTruthy : Option String → Bool
  | none => false
  | some s => !s.isEmpty

/-- Preview descriptor returned by `sandbox.get_preview_link`: an opaque
URL and an access token. -/
structure PreviewInfo where
  url : String
  token : String
deriving Repr, DecidableEq

/-- The flat record returned by `main` of the create-and-preview script on
success: exactly the fields `sandbox_id`, `url`, `token`. -/
structure RunRecord where
  sandbox_id : String
  url : String
  token : String
deriving Repr, DecidableEq

/-- The three Python payloads the create-and-preview script sends to
`sandbox.process.code_run`, abstracted to the data that matters: the
repository URL cloned, the install command line, and the dev-server
command line together with whether it is detached into a background
thread. -/
inductive RemoteScript
  | cloneRepo (repoUrl : String)
  | npmInstall (args : List String)
  | startDevServer (cmd : List String) (background : Bool)
deriving Repr, DecidableEq

/-- Provider-client calls (and the one local sleep) made by the
create-and-preview script, in trace order. -/
inductive Event
  | create (tlsVerify : Bool)
  | codeRun (script : RemoteScript)
  | sleep (seconds : Nat)
  | getPreviewLink (port : Nat)
deriving Repr, DecidableEq

/-- Stub behaviour of the provider client for one creation attempt of the
create-and-preview script: each fallible call either raises
(`Except.error ()`) or returns its payload. -/
structure ClientBehavior where
  createResult : Except Unit String
  cloneResult : Except Unit String
  installResult : Except Unit String
  devServerResult : Except Unit String
  previewResult : Except Unit PreviewInfo
deriving Repr

/-- The clone payload: `git clone https://github.com/pria-cloud/agents.git`
run in the sandbox home directory (lines 110-129 of the script). -/
def cloneScript : RemoteScript :=
  .cloneRepo "https://github.com/pria-cloud/agents.git"

/-- The install payload: `npm install --legacy-peer-deps` in
`agents/scaffold-files` (lines 136-153). -/
def installScript : RemoteScript :=
  .npmInstall ["npm", "install", "--legacy-peer-deps"]

/-- The dev-server payload: `npm run dev` spawned in a daemonized
background thread inside the sandbox (lines 160-186). -/
def devServerScript : RemoteScript :=
  .startDevServer ["npm", "run", "dev"] true

/-- `setup_sandbox`: three sequential `code_run` calls (clone, install,
dev server) followed by `time.sleep(10)`.  Returns the trace of calls it
made and whether it raised: a raising `code_run` aborts the remainder. -/
def setup_sandbox (b : ClientBehavior) : List Event × Except Unit Unit :=
  match b.cloneResult with
  | .error e => ([.codeRun cloneScript], .error e)
  | .ok _ =>
    match b.installResult with
    | .error e => ([.codeRun cloneScript, .codeRun installScript], .error e)
    | .ok _ =>
      match b.devServerResult with
      | .error e =>
          ([.codeRun cloneScript, .codeRun installScript,
            .codeRun devServerScript], .error e)
      | .ok _ =>
          ([.codeRun cloneScript, .codeRun installScript,
            .codeRun devServerScript, .sleep 10], .ok ())

/-- One full creation attempt of the create-and-preview script (the try
body, lines 23-66, also rerun verbatim as the fallback body, lines
72-100): create the sandbox, run `setup_sandbox`, request the preview
link for port 3000, and assemble the returned record.  `tlsVerify` is
`true` on the primary attempt and `false` on the fallback (which sets
`PYTHONHTTPSVERIFY=0` and an unverified SSL context first).  Returns the
trace and `some record` on success, `none` if any step raised. -/
def attemptRun (tlsVerify : Bool) (b : ClientBehavior) :
    List Event × Option RunRecord :=
  match b.createResult with
  | .error _ => ([.create tlsVerify], none)
  | .ok sid =>
    match setup_sandbox b with
    | (st, .error _) => (Event.create tlsVerify :: st, none)
    | (st, .ok _) =>
      match b.previewResult with
      | .error _ =>
          (Event.create tlsVerify :: (st ++ [.getPreviewLink 3000]), none)
      | .ok p =>
          (Event.create tlsVerify :: (st ++ [.getPreviewLink 3000]),
           some ⟨sid, p.url, p.token⟩)

/-- Outcome of a run of the create-and-preview script: either `main`
returned its record (process exit status 0) or the process called
`sys.exit` with the given status. -/
inductive Outcome
  | success (record : RunRecord)
  | exited (code : Nat)
deriving Repr, DecidableEq

/-- The process exit status an `Outcome` corresponds to. -/
def Outcome.exitCode : Outcome → Nat
  | .success _ => 0
  | .exited c => c

/-- Line 16 of the create-and-preview script:
`api_key = sys.argv[1] if len(sys.argv) > 1 else os.getenv('DAYTONA_API_KEY')`.
`argv` is the argument list after the script name; `envKey` is the value
of `DAYTONA_API_KEY` in the environment. -/
def createPreviewApiKey (argv : List String) (envKey : Option String) :
    Option String :=
  match argv.head? with
  | some a => some a
  | none => envKey

/-- `main` of the create-and-preview script: resolve the API key (exit 1
if falsy), run the primary attempt, and on any exception run exactly one
fallback attempt with TLS verification disabled; exit 1 if the fallback
also raises.  `primary` and `fallback` are the stub client's behaviours
on the two attempts. -/
def createPreviewMain (argv : List String) (envKey : Option String)
    (primary fallback : ClientBehavior) : List Event × Outcome :=
  if !(strTruthy (createPreviewApiKey argv envKey)) then ([], .exited 1)
  else
    match attemptRun true primary with
    | (t1, some r) => (t1, .success r)
    | (t1, none) =>
      match attemptRun false fallback with
      | (t2, some r) => (t1 ++ t2, .success r)
      | (t2, none) => (t1 ++ t2, .exited 1)

/-! ## The preview-link-lookup script (`get-preview-link.py`) -/

/-- The sandbox identifier hardcoded at line 14 of `get-preview-link.py`. -/
def hardcodedSandboxId : String := "f9b8c0fa-0649-428e-9042-d774e1123721"

/-- Provider-client calls made by the preview-link-lookup script. -/
inductive LEvent
  | findOne (sandboxId : String)
  | getPreviewLink (port : Nat)
deriving Repr, DecidableEq

/-- Stub behaviour of the provider client for the lookup script:
`daytona.find_one` and `sandbox.get_preview_link` each either raise or
return. -/
structure LookupBehavior where
  findOneResult : Except Unit Unit
  previewResult : Except Unit PreviewInfo
deriving Repr

/-- `main` of `get-preview-link.py`: look the hardcoded sandbox up, then
request its preview link for port 3000; any exception is caught and the
process exits 1, otherwise it falls off the end of `main` (exit 0).
Returns the trace of provider calls and the exit status. -/
def getPreviewLinkMain (b : LookupBehavior) : List LEvent × Nat :=
  match b.findOneResult with
  | .error _ => ([.findOne hardcodedSandboxId], 1)
  | .ok _ =>
    match b.previewResult with
    | .error _ => ([.findOne hardcodedSandboxId, .getPreviewLink 3000], 1)
    | .ok _ => ([.findOne hardcodedSandboxId, .getPreviewLink 3000], 0)

/-! ## The git-deploy script (`scaffold-files/daytona-deploy.py`) -/

/-- The resource-request record of `CreateSandboxFromGitParams`. -/
structure Resources where
  cpu : Nat
  memory : Nat
  disk : Nat
deriving Repr, DecidableEq

/-- The parameters the deploy script passes to `daytona.create` (lines
38-52). -/
structure CreateSandboxFromGitParams where
  repository : String
  branch : String
  auto_stop_interval : Nat
  resources : Resources
  labels : List (String × String)
deriving Repr, DecidableEq

/-- The concrete parameter record built for a repository URL: branch
`main`, no auto-stop, 2 CPU / 4 GB RAM / 8 GB disk, and the three fixed
labels. -/
def scaffoldParams (repoUrl : String) : CreateSandboxFromGitParams :=
  { repository := repoUrl
    branch := "main"
    auto_stop_interval := 0
    resources := ⟨2, 4, 8⟩
    labels := [("project", "scaffold-app"), ("type", "nextjs-development"),
               ("api-enabled", "true")] }

/-- Result payload of `sandbox.process.run`: a reported exit code and
captured standard error. -/
structure RunResult where
  exit_code : Int
  stderr : String
deriving Repr, DecidableEq

/-- Provider-client calls and console reports made by the deploy script. -/
inductive DEvent
  | clientInit (apiKey : String)
  | create (params : CreateSandboxFromGitParams)
  | getUserRootDir
  | run (command : String) (background : Bool)
  | stepReport (command : String) (succeeded : Bool)
  | reportError
deriving Repr, DecidableEq

/-- Stub behaviour of the provider client for one call of
`deploy_scaffold_to_daytona`: each fallible call either raises or returns
its payload. -/
structure DeployBehavior where
  createResult : Except Unit String
  rootDirResult : Except Unit String
  installResult : Except Unit RunResult
  buildResult : Except Unit RunResult
  startResult : Except Unit RunResult
deriving Repr

/-- The try body of `deploy_scaffold_to_daytona` (lines 34-89): create the
sandbox from git parameters, read its root directory, run `npm install`
and `npm run build` (reporting each step's exit code without aborting on
a non-zero one), start `npm run dev` in the background, and return the
sandbox identifier.  A raising call aborts the remainder with
`Except.error`. -/
def deployBody (api_key repo_url : String) (b : DeployBehavior) :
    List DEvent × Except Unit String :=
  let pre : List DEvent := [.clientInit api_key, .create (scaffoldParams repo_url)]
  match b.createResult with
  | .error e => (pre, .error e)
  | .ok sid =>
    match b.rootDirResult with
    | .error e => (pre ++ [.getUserRootDir], .error e)
    | .ok _ =>
      match b.installResult with
      | .error e => (pre ++ [.getUserRootDir, .run "npm install" false], .error e)
      | .ok ir =>
        match b.buildResult with
        | .error e =>
            (pre ++ [.getUserRootDir, .run "npm install" false,
              .stepReport "npm install" (ir.exit_code == 0),
              .run "npm run build" false], .error e)
        | .ok br =>
          match b.startResult with
          | .error e =>
              (pre ++ [.getUserRootDir, .run "npm install" false,
                .stepReport "npm install" (ir.exit_code == 0),
                .run "npm run build" false,
                .stepReport "npm run build" (br.exit_code == 0),
                .run "npm run dev" true], .error e)
          | .ok _ =>
              (pre ++ [.getUserRootDir, .run "npm install" false,
                .stepReport "npm install" (ir.exit_code == 0),
                .run "npm run build" false,
                .stepReport "npm run build" (br.exit_code == 0),
                .run "npm run dev" true], .ok sid)

/-- `deploy_scaffold_to_daytona`: the try body with its except clause
(lines 91-93), which catches any exception, prints an error report, and
returns `None` instead of raising. -/
def deploy_scaffold_to_daytona (api_key repo_url : String)
    (b : DeployBehavior) : List DEvent × Option String :=
  match deployBody api_key repo_url b with
  | (t, .error _) => (t ++ [.reportError], none)
  | (t, .ok sid) => (t, some sid)

/-- Parent of a directory path modelled as a component list; the parent
of the filesystem root is itself, as with `os.path.dirname`. -/
def parentDir (dir : List String) : List String := dir.dropLast

/-- The marker-search loop of `create_from_current_directory` (lines
99-110): up to `fuel` iterations, check the current directory for a
`.git` entry, else step to the parent, stopping early at the filesystem
root. -/
def findGitRootLoop (hasGit : List String → Bool) :
    Nat → List String → Option (List String)
  | 0, _ => none
  | n + 1, dir =>
    if hasGit dir then some dir
    else if parentDir dir = dir then none
    else findGitRootLoop hasGit n (parentDir dir)

/-- The deploy script checks the working directory and at most four
ancestors: `for i in range(5)`. -/
def findGitRoot (hasGit : List String → Bool) (cwd : List String) :
    Option (List String) :=
  findGitRootLoop hasGit 5 cwd

/-- Local git environment of `create_from_current_directory`: which
directories contain a `.git` marker, the working directory, and the
outcome of `git remote get-url origin` (return code and stdout), which
may itself raise. -/
structure GitEnv where
  hasGit : List String → Bool
  cwd : List String
  remoteUrl : Except Unit (Int × String)

/-- `create_from_current_directory` (lines 95-134): walk up looking for a
`.git` marker; without one, report failure and return `None` making no
provider call.  With one, read the remote origin URL (returning `None` on
a non-zero return code or an exception) and delegate to
`deploy_scaffold_to_daytona` with the stripped URL. -/
def create_from_current_directory (api_key : String) (g : GitEnv)
    (b : DeployBehavior) : List DEvent × Option String :=
  match findGitRoot g.hasGit g.cwd with
  | none => ([], none)
  | some _ =>
    match g.remoteUrl with
    | .error _ => ([], none)
    | .ok (rc, out) =>
      if rc = 0 then deploy_scaffold_to_daytona api_key out.trim b
      else ([], none)

/-- Line 137 of the deploy script:
`API_KEY = os.environ.get('DAYTONA_API_KEY') or (sys.argv[1] if len(sys.argv) > 1 else None)`.
Python `or` yields the environment value when it is truthy (set and
non-empty) and the first argument (or `None`) otherwise. -/
def deployApiKey (envKey : Option String) (argv : List String) :
    Option String :=
  if strTruthy envKey then envKey else argv.head?

/-- Outcome of a run of the deploy script's `__main__` block: either
`sys.exit` with a status, or the script ran to its end (exit status 0)
holding the deploy result, printing the next-steps block only when that
result is non-empty. -/
inductive DeployOutcome
  | exited (code : Nat)
  | finished (sandbox : Option String)
deriving Repr, DecidableEq

/-- The process exit status a `DeployOutcome` corresponds to: the script
ends with status 0 whenever it runs to the end, whatever the deploy
result. -/
def DeployOutcome.exitCode : DeployOutcome → Nat
  | .exited c => c
  | .finished _ => 0

/-- The `__main__` block of the deploy script (lines 136-161): resolve
the API key (exit 1 when falsy), then deploy from the argument URL when
an argument is given, else from the current directory; run to the end
either way. -/
def deployMain (envKey : Option String) (argv : List String) (g : GitEnv)
    (b : DeployBehavior) : List DEvent × DeployOutcome :=
  match deployApiKey envKey argv with
  | none => ([], .exited 1)
  | some k =>
    if k.isEmpty then ([], .exited 1)
    else
      match argv.head? with
      | some repo =>
        match deploy_scaffold_to_daytona k repo b with
        | (t, s) => (t, .finished s)
      | none =>
        match create_from_current_directory k g b with
        | (t, s) => (t, .finished s)

/-- Number of preview-link requests for port 3000 in a lookup-script
trace. -/
def countPreviewRequests (t : List LEvent) : Nat :=
  (t.filter fun e =>
    match e with
    | .getPreviewLink p => p == 3000
    | _ => false).length

/-! ## Concrete stub behaviours used to exercise the models -/

/-- A stub client on which every call of the create-and-preview script
succeeds. -/
def okBehavior : ClientBehavior :=
  ⟨.ok "sb-1", .ok "cloned", .ok "installed", .ok "dev",
   .ok ⟨"https://preview.example", "tok-1"⟩⟩

/-- A stub client whose `daytona.create` raises. -/
def failCreateBehavior : ClientBehavior :=
  ⟨.error (), .ok "cloned", .ok "installed", .ok "dev", .ok ⟨"u", "t"⟩⟩

/-- A lookup-script stub whose `daytona.find_one` raises. -/
def lookupFailBehavior : LookupBehavior :=
  ⟨.error (), .ok ⟨"u", "t"⟩⟩

/-- A lookup-script stub on which every call succeeds. -/
def lookupOkBehavior : LookupBehavior :=
  ⟨.ok (), .ok ⟨"https://preview.example", "tok-2"⟩⟩

/-- A deploy-script stub on which every call succeeds with exit code 0. -/
def okDeployBehavior : DeployBehavior :=
  ⟨.ok "sb-2", .ok "/root-dir", .ok ⟨0, ""⟩, .ok ⟨0, ""⟩, .ok ⟨0, ""⟩⟩

/-- A deploy-script stub whose install and build steps return exit code 1. -/
def failingStepsBehavior : DeployBehavior :=
  ⟨.ok "sb-3", .ok "/root-dir", .ok ⟨1, "install-err"⟩, .ok ⟨1, "build-err"⟩,
   .ok ⟨0, ""⟩⟩

/-- A deploy-script stub whose `daytona.create` raises. -/
def failCreateDeployBehavior : DeployBehavior :=
  ⟨.error (), .ok "/root-dir", .ok ⟨0, ""⟩, .ok ⟨0, ""⟩, .ok ⟨0, ""⟩⟩

/-- A local git environment in which no directory holds a `.git` marker. -/
def noGitEnv : GitEnv :=
  ⟨fun _ => false, ["home", "user", "work"],
   .ok (0, "https://github.com/x/y.git")⟩

/-! ## Theorems -/

/-- Every creation attempt starts with the `daytona.create` call carrying
the attempt's TLS-verification setting, whatever the stub does. -/
theorem attemptRun_head (v : Bool) (b : ClientBehavior) :
    (attemptRun v b).1.head? = some (.create v) := by
  cases hc : b.createResult with
  | error e => simp [attemptRun, hc]
  | ok sid =>
    cases hs : setup_sandbox b with
    | mk st r =>
      cases r with
      | error e => simp [attemptRun, hc, hs]
      | ok u => cases hp : b.previewResult <;> simp [attemptRun, hc, hs, hp]

/-- C1: For every invocation of the create-and-preview script and of the
git-deploy script in which no API key is available from the positional
argument or from the `DAYTONA_API_KEY` environment variable, the process
exits with status 1 and performs no call to the sandbox-provider client
(the trace of provider calls is empty). -/
theorem missingKey_exits_without_provider_calls
    (argv₁ : List String) (envKey₁ : Option String)
    (pb fb : ClientBehavior)
    (argv₂ : List String) (envKey₂ : Option String)
    (g : GitEnv) (b : DeployBehavior)
    (h₁ : strTruthy argv₁.head? = false ∧ strTruthy envKey₁ = false)
    (h₂ : strTruthy argv₂.head? = false ∧ strTruthy envKey₂ = false) :
    createPreviewMain argv₁ envKey₁ pb fb = ([], .exited 1)
    ∧ deployMain envKey₂ argv₂ g b = ([], .exited 1) := by
  constructor
  · cases argv₁ with
    | nil => simp [createPreviewMain, createPreviewApiKey, h₁.2]
    | cons a t =>
      have ha : strTruthy (some a) = false := by simpa using h₁.1
      simp [createPreviewMain, createPreviewApiKey, ha]
  · have henv : strTruthy envKey₂ = false := h₂.2
    cases argv₂ with
    | nil => simp [deployMain, deployApiKey, henv]
    | cons a t =>
      have ha : a.isEmpty = true := by
        have := h₂.1
        simpa [strTruthy] using this
      simp [deployMain, deployApiKey, henv, ha]

/-- Closed witness for `missingKey_exits_without_provider_calls`: no
argument and no environment variable. -/
theorem missingKey_exits_without_provider_calls_witness :
    (strTruthy ([] : List String).head? = false ∧ strTruthy none = false)
    ∧ createPreviewMain [] none okBehavior okBehavior = ([], .exited 1)
    ∧ deployMain none [] noGitEnv okDeployBehavior = ([], .exited 1) :=
  ⟨⟨rfl, rfl⟩,
   missingKey_exits_without_provider_calls [] none okBehavior okBehavior
     [] none noGitEnv okDeployBehavior ⟨rfl, rfl⟩ ⟨rfl, rfl⟩⟩

/-- C2: In the create-and-preview script, any exception during the primary
attempt triggers exactly one fallback attempt, run with TLS certificate
verification disabled and rerunning the whole creation sequence from
scratch; the run's trace is the primary attempt's trace followed by the
one fallback attempt's trace, the outcome is the fallback's record on
success and exit status 1 on failure, and the final exit status is 0
exactly when the fallback produced a record. -/
theorem primary_failure_single_fallback_tls_disabled
    (argv : List String) (envKey : Option String) (pb fb : ClientBehavior)
    (hkey : strTruthy (createPreviewApiKey argv envKey) = true)
    (hfail : (attemptRun true pb).2 = none) :
    createPreviewMain argv envKey pb fb
      = ((attemptRun true pb).1 ++ (attemptRun false fb).1,
         match (attemptRun false fb).2 with
         | some r => Outcome.success r
         | none => Outcome.exited 1)
    ∧ (attemptRun false fb).1.head? = some (.create false)
    ∧ (createPreviewMain argv envKey pb fb).2.exitCode
        = if (attemptRun false fb).2.isSome then 0 else 1 := by
  have hhead := attemptRun_head false fb
  cases h1 : attemptRun true pb with
  | mk t1 r1 =>
    cases r1 with
    | some r => rw [h1] at hfail; simp at hfail
    | none =>
      cases h2 : attemptRun false fb with
      | mk t2 r2 =>
        rw [h2] at hhead
        cases r2 with
        | some r =>
          refine ⟨?_, hhead, ?_⟩ <;>
            simp [createPreviewMain, hkey, h1, h2, Outcome.exitCode]
        | none =>
          refine ⟨?_, hhead, ?_⟩ <;>
            simp [createPreviewMain, hkey, h1, h2, Outcome.exitCode]

/-- Closed witness for `primary_failure_single_fallback_tls_disabled`:
primary creation raises, fallback succeeds. -/
theorem primary_failure_single_fallback_tls_disabled_witness :
    strTruthy (createPreviewApiKey ["key-1"] none) = true
    ∧ (attemptRun true failCreateBehavior).2 = none
    ∧ createPreviewMain ["key-1"] none failCreateBehavior okBehavior
        = ((attemptRun true failCreateBehavior).1
            ++ (attemptRun false okBehavior).1,
           match (attemptRun false okBehavior).2 with
           | some r => Outcome.success r
           | none => Outcome.exited 1) :=
  ⟨rfl, rfl,
   (primary_failure_single_fallback_tls_disabled ["key-1"] none
     failCreateBehavior okBehavior rfl rfl).1⟩

/-- C3: For every successful creation attempt of the create-and-preview
script (in particular every successful primary-path run of `main`), the
operations occur in exactly this order: sandbox creation, clone of the
fixed repository, dependency install with `--legacy-peer-deps`, background
launch of the dev server, a fixed ten-second sleep, and only then the
preview-link request for port 3000. -/
theorem successful_attempt_operation_order
    (v : Bool) (b : ClientBehavior) (sid c i d : String) (p : PreviewInfo)
    (hc : b.createResult = .ok sid) (hcl : b.cloneResult = .ok c)
    (hi : b.installResult = .ok i) (hd : b.devServerResult = .ok d)
    (hp : b.previewResult = .ok p) :
    attemptRun v b
      = ([.create v, .codeRun cloneScript, .codeRun installScript,
          .codeRun devServerScript, .sleep 10, .getPreviewLink 3000],
         some ⟨sid, p.url, p.token⟩)
    ∧ cloneScript = .cloneRepo "https://github.com/pria-cloud/agents.git"
    ∧ installScript = .npmInstall ["npm", "install", "--legacy-peer-deps"]
    ∧ devServerScript = .startDevServer ["npm", "run", "dev"] true
    ∧ (∀ (argv : List String) (envKey : Option String) (fb : ClientBehavior),
        strTruthy (createPreviewApiKey argv envKey) = true →
        createPreviewMain argv envKey b fb
          = ([.create true, .codeRun cloneScript, .codeRun installScript,
              .codeRun devServerScript, .sleep 10, .getPreviewLink 3000],
             .success ⟨sid, p.url, p.token⟩)) := by
  have hatt : ∀ w : Bool,
      attemptRun w b
        = ([.create w, .codeRun cloneScript, .codeRun installScript,
            .codeRun devServerScript, .sleep 10, .getPreviewLink 3000],
           some ⟨sid, p.url, p.token⟩) := by
    intro w
    simp [attemptRun, setup_sandbox, hc, hcl, hi, hd, hp]
  refine ⟨hatt v, rfl, rfl, rfl, ?_⟩
  intro argv envKey fb hkey
  simp [createPreviewMain, hkey, hatt true]

/-- Closed witness for `successful_attempt_operation_order`: the
all-succeeding stub. -/
theorem successful_attempt_operation_order_witness :
    attemptRun true okBehavior
      = ([.create true, .codeRun cloneScript, .codeRun installScript,
          .codeRun devServerScript, .sleep 10, .getPreviewLink 3000],
         some ⟨"sb-1", "https://preview.example", "tok-1"⟩) :=
  (successful_attempt_operation_order true okBehavior "sb-1" "cloned"
    "installed" "dev" ⟨"https://preview.example", "tok-1"⟩
    rfl rfl rfl rfl rfl).1

/-- C7: For every successful single-path (primary) run of the
create-and-preview script, the returned record holds exactly the three
fields `sandbox_id`, `url`, `token` (the full field set of `RunRecord`),
each equal, unmodified, to the value the provider client supplied. -/
theorem success_record_fields_unmodified
    (argv : List String) (envKey : Option String) (pb fb : ClientBehavior)
    (sid c i d : String) (p : PreviewInfo)
    (hkey : strTruthy (createPreviewApiKey argv envKey) = true)
    (hc : pb.createResult = .ok sid) (hcl : pb.cloneResult = .ok c)
    (hi : pb.installResult = .ok i) (hd : pb.devServerResult = .ok d)
    (hp : pb.previewResult = .ok p) :
    (createPreviewMain argv envKey pb fb).2
      = .success { sandbox_id := sid, url := p.url, token := p.token } := by
  simp [createPreviewMain, attemptRun, setup_sandbox, hkey, hc, hcl, hi, hd, hp]

/-- C6 counterexample: on a run of the preview-link-lookup script in
which `daytona.find_one` raises, the preview link is requested zero
times, not exactly once, even though the process does exit with status 1. -/
theorem preview_request_count_counterexample :
    countPreviewRequests (getPreviewLinkMain lookupFailBehavior).1 ≠ 1
    ∧ (getPreviewLinkMain lookupFailBehavior).2 = 1 := by
  decide

/-- C6 as amended: the preview-link-lookup script requests the preview
link for port 3000 at most once per run — exactly once whenever the
sandbox lookup succeeds — and if the sandbox lookup or the preview-link
request raises, the process exits with status 1 (and with status 0 when
both succeed). -/
theorem preview_request_at_most_once (b : LookupBehavior) :
    countPreviewRequests (getPreviewLinkMain b).1 ≤ 1
    ∧ (b.findOneResult = .ok () →
        countPreviewRequests (getPreviewLinkMain b).1 = 1)
    ∧ ((b.findOneResult = .error () ∨ b.previewResult = .error ()) →
        (getPreviewLinkMain b).2 = 1)
    ∧ (∀ p : PreviewInfo, b.findOneResult = .ok () →
        b.previewResult = .ok p → (getPreviewLinkMain b).2 = 0) := by
  cases hf : b.findOneResult with
  | error e =>
    have hmain : getPreviewLinkMain b = ([.findOne hardcodedSandboxId], 1) := by
      simp [getPreviewLinkMain, hf]
    refine ⟨?_, fun h => ?_, fun _ => ?_, fun p h _ => ?_⟩
    · rw [hmain]; decide
    · simp at h
    · rw [hmain]
    · simp at h
  | ok u =>
    cases hp : b.previewResult with
    | error e2 =>
      have hmain : getPreviewLinkMain b
          = ([.findOne hardcodedSandboxId, .getPreviewLink 3000], 1) := by
        simp [getPreviewLinkMain, hf, hp]
      refine ⟨?_, fun _ => ?_, fun _ => ?_, fun p _ hpp => ?_⟩
      · rw [hmain]; decide
      · rw [hmain]; decide
      · rw [hmain]
      · simp at hpp
    | ok pv =>
      have hmain : getPreviewLinkMain b
          = ([.findOne hardcodedSandboxId, .getPreviewLink 3000], 0) := by
        simp [getPreviewLinkMain, hf, hp]
      refine ⟨?_, fun _ => ?_, fun hor => ?_, fun p _ _ => ?_⟩
      · rw [hmain]; decide
      · rw [hmain]; decide
      · rcases hor with h | h <;> simp at h
      · rw [hmain]

/-- Closed witness for `preview_request_at_most_once`: a succeeding
lookup makes exactly one preview request; a raising lookup exits 1. -/
theorem preview_request_at_most_once_witness :
    countPreviewRequests (getPreviewLinkMain lookupOkBehavior).1 = 1
    ∧ (getPreviewLinkMain lookupFailBehavior).2 = 1 :=
  ⟨(preview_request_at_most_once lookupOkBehavior).2.1 rfl,
   (preview_request_at_most_once lookupFailBehavior).2.2.1 (Or.inl rfl)⟩

/-- If no directory checked by the marker-search loop holds a `.git`
marker, the loop reports none. -/
theorem findGitRootLoop_none (hasGit : List String → Bool) :
    ∀ (n : Nat) (dir : List String),
      (∀ i, i < n → hasGit (parentDir^[i] dir) = false) →
      findGitRootLoop hasGit n dir = none := by
  intro n
  induction n with
  | zero => intro dir _; rfl
  | succ m ih =>
    intro dir h
    have h0 : hasGit dir = false := by simpa using h 0 (Nat.succ_pos m)
    unfold findGitRootLoop
    rw [h0]
    simp only [Bool.false_eq_true, if_false]
    split
    · rfl
    · exact ih (parentDir dir) fun i hi => by
        have hh := h (i + 1) (Nat.succ_lt_succ hi)
        rwa [Function.iterate_succ_apply] at hh

/-- C4: In the git-deploy script's directory-based path, if the working
directory and each of its ancestors up to five levels lack a `.git`
repository marker, `create_from_current_directory` reports failure and
returns an empty result, making no sandbox-provider call (empty trace). -/
theorem no_git_marker_no_provider_call
    (api_key : String) (g : GitEnv) (b : DeployBehavior)
    (h : ∀ i, i ≤ 5 → g.hasGit (parentDir^[i] g.cwd) = false) :
    create_from_current_directory api_key g b = ([], none) := by
  have hnone : findGitRoot g.hasGit g.cwd = none :=
    findGitRootLoop_none g.hasGit 5 g.cwd fun i hi => h i (Nat.le_of_lt hi)
  simp [create_from_current_directory, findGitRoot] at hnone ⊢
  simp [hnone]

/-- Closed witness for `no_git_marker_no_provider_call`: a filesystem
with no `.git` marker anywhere. -/
theorem no_git_marker_no_provider_call_witness :
    (∀ i, i ≤ 5 → noGitEnv.hasGit (parentDir^[i] noGitEnv.cwd) = false)
    ∧ create_from_current_directory "key-3" noGitEnv okDeployBehavior
        = ([], none) :=
  ⟨fun _ _ => rfl,
   no_git_marker_no_provider_call "key-3" noGitEnv okDeployBehavior
     fun _ _ => rfl⟩

/-- C8 counterexample: in the git-deploy script, with `DAYTONA_API_KEY`
set to `env-key` and the positional argument `arg-key` given, the API key
used (passed to the client at its construction) is the environment value,
not the argument. -/
theorem deploy_env_key_overrides_argument :
    deployApiKey (some "env-key") ["arg-key"] = some "env-key"
    ∧ (deployMain (some "env-key") ["arg-key"] noGitEnv
        okDeployBehavior).1.head? = some (.clientInit "env-key")
    ∧ "env-key" ≠ "arg-key" := by
  refine ⟨rfl, rfl, by decide⟩

/-- C8 as amended: in the create-and-preview script the API key comes
from the positional argument whenever one is given, and from
`DAYTONA_API_KEY` only when no argument is present; in the git-deploy
script the precedence is reversed: the environment variable wins whenever
it is set and non-empty, and the positional argument is consulted only
otherwise. -/
theorem api_key_precedence_per_script
    (argv : List String) (envKey : Option String) (a : String)
    (rest : List String) :
    (argv = a :: rest → createPreviewApiKey argv envKey = some a)
    ∧ (argv = [] → createPreviewApiKey argv envKey = envKey)
    ∧ (strTruthy envKey = true → deployApiKey envKey argv = envKey)
    ∧ (strTruthy envKey = false → deployApiKey envKey argv = argv.head?) := by
  refine ⟨fun h => ?_, fun h => ?_, fun h => ?_, fun h => ?_⟩ <;>
    simp [createPreviewApiKey, deployApiKey, h]

/-- Closed witness for `api_key_precedence_per_script`: with both an
argument and an environment value present, the create-and-preview script
uses the argument and the git-deploy script uses the environment value. -/
theorem api_key_precedence_per_script_witness :
    createPreviewApiKey ["arg-key"] (some "env-key") = some "arg-key"
    ∧ deployApiKey (some "env-key") ["arg-key"] = some "env-key" :=
  ⟨(api_key_precedence_per_script ["arg-key"] (some "env-key") "arg-key"
      []).1 rfl,
   (api_key_precedence_per_script ["arg-key"] (some "env-key") "arg-key"
      []).2.2.1 rfl⟩

/-- Closed witness for `success_record_fields_unmodified`. -/
theorem success_record_fields_unmodified_witness :
    (createPreviewMain ["key-2"] none okBehavior okBehavior).2
      = .success { sandbox_id := "sb-1", url := "https://preview.example",
                   token := "tok-1" } :=
  success_record_fields_unmodified ["key-2"] none okBehavior okBehavior
    "sb-1" "cloned" "installed" "dev" ⟨"https://preview.example", "tok-1"⟩
    rfl rfl rfl rfl rfl rfl

/-- C5: In the git-deploy script, a non-zero reported exit code from the
install step is printed as a failure yet the build step is still
attempted, and a non-zero reported exit code from the build step is
printed as a failure yet the background start step is still attempted. -/
theorem failed_step_reported_next_step_attempted
    (k repo : String) (b : DeployBehavior) (sid rd : String) (ir : RunResult)
    (hc : b.createResult = .ok sid) (hr : b.rootDirResult = .ok rd)
    (hi : b.installResult = .ok ir) :
    (ir.exit_code ≠ 0 →
       DEvent.stepReport "npm install" false
         ∈ (deploy_scaffold_to_daytona k repo b).1
       ∧ DEvent.run "npm run build" false
         ∈ (deploy_scaffold_to_daytona k repo b).1)
    ∧ (∀ br : RunResult, b.buildResult = .ok br → br.exit_code ≠ 0 →
       DEvent.stepReport "npm run build" false
         ∈ (deploy_scaffold_to_daytona k repo b).1
       ∧ DEvent.run "npm run dev" true
         ∈ (deploy_scaffold_to_daytona k repo b).1) := by
  constructor
  · intro hne
    have h0 : (ir.exit_code == 0) = false := beq_eq_false_iff_ne.mpr hne
    cases hb : b.buildResult with
    | error e =>
      constructor <;>
        simp [deploy_scaffold_to_daytona, deployBody, hc, hr, hi, hb, h0]
    | ok br =>
      cases hs : b.startResult with
      | error e =>
        constructor <;>
          simp [deploy_scaffold_to_daytona, deployBody, hc, hr, hi, hb, hs, h0]
      | ok sr =>
        constructor <;>
          simp [deploy_scaffold_to_daytona, deployBody, hc, hr, hi, hb, hs, h0]
  · intro br hb hbne
    have h0 : (br.exit_code == 0) = false := beq_eq_false_iff_ne.mpr hbne
    cases hs : b.startResult with
    | error e =>
      constructor <;>
        simp [deploy_scaffold_to_daytona, deployBody, hc, hr, hi, hb, hs, h0]
    | ok sr =>
      constructor <;>
        simp [deploy_scaffold_to_daytona, deployBody, hc, hr, hi, hb, hs, h0]

/-- Closed witness for `failed_step_reported_next_step_attempted`: the
stub whose install and build steps return exit code 1. -/
theorem failed_step_reported_next_step_attempted_witness :
    DEvent.run "npm run build" false
      ∈ (deploy_scaffold_to_daytona "key-4" "repo-4" failingStepsBehavior).1
    ∧ DEvent.run "npm run dev" true
      ∈ (deploy_scaffold_to_daytona "key-4" "repo-4" failingStepsBehavior).1 :=
  ⟨((failed_step_reported_next_step_attempted "key-4" "repo-4"
      failingStepsBehavior "sb-3" "/root-dir" ⟨1, "install-err"⟩
      rfl rfl rfl).1 (by decide)).2,
   ((failed_step_reported_next_step_attempted "key-4" "repo-4"
      failingStepsBehavior "sb-3" "/root-dir" ⟨1, "install-err"⟩
      rfl rfl rfl).2 ⟨1, "build-err"⟩ rfl (by decide)).2⟩

/-- C9: In the git-deploy script, every exception raised inside the try
body of `deploy_scaffold_to_daytona` (sandbox creation or the subsequent
remote commands) is caught and reported, the function returning an absent
result instead of raising; and the top-level `__main__` block exits with
a non-zero status only on the missing-key path, where no deploy result
exists and no provider call was made. -/
theorem deploy_exceptions_caught_return_none
    (k repo : String) (b : DeployBehavior) (t : List DEvent)
    (hb : deployBody k repo b = (t, .error ())) :
    deploy_scaffold_to_daytona k repo b = (t ++ [.reportError], none)
    ∧ ∀ (envKey : Option String) (argv : List String) (g : GitEnv),
        (deployMain envKey argv g b).2.exitCode ≠ 0 →
        deployMain envKey argv g b = ([], .exited 1) := by
  constructor
  · simp [deploy_scaffold_to_daytona, hb]
  · intro envKey argv g hne
    cases hk : deployApiKey envKey argv with
    | none => simp [deployMain, hk]
    | some key =>
      cases hkE : key.isEmpty with
      | true => simp [deployMain, hk, hkE]
      | false =>
        exfalso
        apply hne
        cases hhead : argv.head? with
        | some repo2 =>
          cases hd : deploy_scaffold_to_daytona key repo2 b with
          | mk t2 s2 =>
            simp [deployMain, hk, hkE, hhead, hd, DeployOutcome.exitCode]
        | none =>
          cases hd : create_from_current_directory key g b with
          | mk t2 s2 =>
            simp [deployMain, hk, hkE, hhead, hd, DeployOutcome.exitCode]

/-- Closed witness for `deploy_exceptions_caught_return_none`: a raising
`daytona.create` yields a reported error and an absent result. -/
theorem deploy_exceptions_caught_return_none_witness :
    deploy_scaffold_to_daytona "key-5" "repo-5" failCreateDeployBehavior
      = ([.clientInit "key-5", .create (scaffoldParams "repo-5")]
          ++ [.reportError], none) :=
  (deploy_exceptions_caught_return_none "key-5" "repo-5"
    failCreateDeployBehavior
    [.clientInit "key-5", .create (scaffoldParams "repo-5")] rfl).1

/-- The deploy function's trace always begins with the client being
handed the API key, whatever the stub does. -/
theorem deployFn_trace_head (k r : String) (b : DeployBehavior) :
    (deploy_scaffold_to_daytona k r b).1.head? = some (.clientInit k) := by
  cases hc : b.createResult <;>
    cases hr : b.rootDirResult <;>
      cases hi : b.installResult <;>
        cases hb : b.buildResult <;>
          cases hs : b.startResult <;>
            simp [deploy_scaffold_to_daytona, deployBody, hc, hr, hi, hb, hs]

/-- Every sandbox-creation call the deploy function makes carries the
fixed parameter record built from its repository URL. -/
theorem deployFn_create_params (k r : String) (b : DeployBehavior)
    (p : CreateSandboxFromGitParams)
    (hp : DEvent.create p ∈ (deploy_scaffold_to_daytona k r b).1) :
    p = scaffoldParams r := by
  cases hc : b.createResult <;>
    cases hr : b.rootDirResult <;>
      cases hi : b.installResult <;>
        cases hb : b.buildResult <;>
          cases hs : b.startResult <;>
            simp [deploy_scaffold_to_daytona, deployBody, hc, hr, hi, hb, hs]
              at hp <;>
              exact hp

/-- C10: In the git-deploy script, when `DAYTONA_API_KEY` is unset and
exactly one (non-empty) positional argument is given, the `__main__`
block invokes `deploy_scaffold_to_daytona` with that same argument as
both the API key and the git repository URL: the run equals the deploy
call at that pair, its trace hands the client the argument as API key,
and every sandbox-creation call in it requests the argument as the
repository. -/
theorem single_argument_is_key_and_repo
    (a : String) (g : GitEnv) (b : DeployBehavior) (ha : a ≠ "") :
    deployMain none [a] g b
      = ((deploy_scaffold_to_daytona a a b).1,
         .finished (deploy_scaffold_to_daytona a a b).2)
    ∧ (deployMain none [a] g b).1.head? = some (.clientInit a)
    ∧ ∀ p : CreateSandboxFromGitParams,
        DEvent.create p ∈ (deployMain none [a] g b).1 →
        p.repository = a := by
  have hne : a.isEmpty = false := by
    cases h : a.isEmpty
    · rfl
    · exact absurd ((String.isEmpty_iff a).mp h) ha
  have hmain : deployMain none [a] g b
      = ((deploy_scaffold_to_daytona a a b).1,
         .finished (deploy_scaffold_to_daytona a a b).2) := by
    cases hd : deploy_scaffold_to_daytona a a b with
    | mk t s => simp [deployMain, deployApiKey, strTruthy, hne, hd]
  refine ⟨hmain, ?_, ?_⟩
  · rw [hmain]
    exact deployFn_trace_head a a b
  · intro p hp
    rw [hmain] at hp
    rw [deployFn_create_params a a b p hp]
    rfl

/-- Closed witness for `single_argument_is_key_and_repo`. -/
theorem single_argument_is_key_and_repo_witness :
    deployMain none ["the-arg"] noGitEnv okDeployBehavior
      = ((deploy_scaffold_to_daytona "the-arg" "the-arg" okDeployBehavior).1,
         .finished (deploy_scaffold_to_daytona "the-arg" "the-arg"
           okDeployBehavior).2) :=
  (single_argument_is_key_and_repo "the-arg" noGitEnv okDeployBehavior
    (by decide)).1

end Agents
